import Mathlib

/-!
Verification of the Cosmos client library (transaction lifecycle
orchestrator).  The definitions below are a shallow embedding of the
Rust sources:

* `src/error.rs`     — the `Error` enum;
* `src/client.rs`    — `CosmosClient` with `attach_signer`, `query`,
  `simulate_tx`, `sign_tx`, `broadcast_tx_sync`, `broadcast_tx_async`,
  `update_sequence_id`;
* `src/signer.rs`    — the `Signer` record and its `sign` method;
* `src/cosmos/tx.rs` — the confirmation poller `poll_for_tx`;
* `src/rpc/json_rpc.rs`, `src/rpc/grpc.rs` — the two transports.

Networking is modelled by an explicit oracle (`RpcOracle`) giving the
remote's reply to each request, and every client operation additionally
returns the list of transport calls it issued, so that call counts and
orderings are provable.  Machine integers are modelled as `Nat` with an
explicit `% 2 ^ 64` where u64 overflow matters.
-/

/-- The error enum of `src/error.rs`.  The `#[from]` wrapper variants carry
the foreign error's message as a `String`. -/
inductive Error where
  | TendermintRpcError (msg : String)
  | Bip32Error (msg : String)
  | ErrorReport (msg : String)
  | FromHexError (msg : String)
  | DecodeError (msg : String)
  | EncodeError (msg : String)
  | TonicError (msg : String)
  | TonicStatus (msg : String)
  | TendermintError (msg : String)
  | UnknownCosmosMsg
  | NoSignerAttached
  | NoSubscription
  | CannotSimulateTxGasFee
  | OutOfGas
  | AccountDoesNotExist (address : String)
  | RpcError (log : String)
  | QueryPath (path : String)
  | NoneTxResponse
  | TXPollingTimeout
  | NoVestingBaseAccount
  | Custom (msg : String)
deriving Repr, DecidableEq

/-- The `CosmosResult<T>` alias from `src/error.rs`. -/
abbrev CosmosResult (α : Type) := Except Error α

instance {ε α : Type} [DecidableEq ε] [DecidableEq α] : DecidableEq (Except ε α) := fun
  | .ok a, .ok b =>
    if h : a = b then .isTrue (by rw [h]) else .isFalse (by intro hc; cases hc; exact h rfl)
  | .error a, .error b =>
    if h : a = b then .isTrue (by rw [h]) else .isFalse (by intro hc; cases hc; exact h rfl)
  | .ok _, .error _ => .isFalse (by intro hc; cases hc)
  | .error _, .ok _ => .isFalse (by intro hc; cases hc)

/-- Proto `cosmos.auth.v1beta1.BaseAccount` (the fields the client reads). -/
structure BaseAccount where
  address : String
  account_number : Nat
  sequence : Nat
deriving Repr, DecidableEq

/-- Proto `cosmos.vesting.v1beta1.BaseVestingAccount` (the field the client reads). -/
structure BaseVestingAccount where
  base_account : Option BaseAccount
deriving Repr, DecidableEq

/-- Proto `cosmos.vesting.v1beta1.ContinuousVestingAccount` (the field the client reads). -/
structure ContinuousVestingAccount where
  base_vesting_account : Option BaseVestingAccount
deriving Repr, DecidableEq

/-- The payload of a proto `Any`: the message the bytes decode to.  Decoding a
byte string as a given message type succeeds exactly when the bytes are an
encoding of that message type; `otherBytes` stands for bytes encoding neither
of the two account shapes. -/
inductive AnyValue where
  | baseAccount (a : BaseAccount)
  | continuousVestingAccount (a : ContinuousVestingAccount)
  | otherBytes (bytes : List Nat)
deriving Repr, DecidableEq

/-- Proto `Any` as stored in `QueryAccountResponse.account`: a type URL plus
encoded value bytes. -/
structure AnyAccount where
  type_url : String
  value : AnyValue
deriving Repr, DecidableEq

/-- Proto `cosmos.auth.v1beta1.QueryAccountResponse`. -/
structure QueryAccountResponse where
  account : Option AnyAccount
deriving Repr, DecidableEq

/-- Models `BaseAccount::decode` (prost) in `src/client.rs` line 189: succeeds
iff the bytes encode a `BaseAccount`. -/
def BaseAccount.decode : AnyValue → CosmosResult BaseAccount
  | .baseAccount a => .ok a
  | _ => .error (.DecodeError "failed to decode BaseAccount")

/-- Models `ContinuousVestingAccount::decode` (prost) in `src/client.rs`
line 195: succeeds iff the bytes encode a `ContinuousVestingAccount`. -/
def ContinuousVestingAccount.decode : AnyValue → CosmosResult ContinuousVestingAccount
  | .continuousVestingAccount a => .ok a
  | _ => .error (.DecodeError "failed to decode ContinuousVestingAccount")

/-- Proto `GasInfo` as read by `sign_tx` (`gas_used`; `gas_wanted` kept for
shape). -/
structure GasInfo where
  gas_wanted : Nat
  gas_used : Nat
deriving Repr, DecidableEq

instance : Inhabited GasInfo := ⟨⟨0, 0⟩⟩

/-- Proto `cosmos.tx.v1beta1.SimulateResponse` (the field the client reads). -/
structure SimulateResponse where
  gas_info : Option GasInfo
deriving Repr, DecidableEq

/-- The transaction body from `cosmrs::tx::Body`: an opaque caller-built
envelope (typed messages plus memo); the client never inspects it. -/
structure Body where
  messages : List String
  memo : String
  timeout_height : Nat
deriving Repr, DecidableEq

/-- The `Signer` of `src/signer.rs`, restricted to the fields the client
reads.  The private/public key pair lives in an external crypto library and
only ever flows into `Signer.sign`, so it is not represented. -/
structure Signer where
  mnemonic : Option String
  denom : String
  public_address : String
  gas_adjustment_percent : Nat
  gas_price : Nat
deriving Repr, DecidableEq

/-- The observable content of the byte payload produced by `Signer::sign`
(`src/signer.rs` lines 122–148): the sign-doc inputs (body, fee, sequence,
chain id, account number).  The elliptic-curve signature itself is produced
by the external `cosmrs` library from exactly these inputs and the key. -/
structure SignedPayload where
  chain_id : String
  account_number : Nat
  sequence_id : Nat
  gas : Nat
  gas_price : Nat
  denom : String
  body : Body
deriving Repr, DecidableEq

/-- Models `Signer::sign` (`src/signer.rs` lines 122–148): builds the
auth info from the public key, sequence and fee `(gas_price, denom, gas)`,
forms the sign doc over `(body, auth_info, chain_id, account_number)` and
signs it.  The cryptographic signing step is an external library call;
the model records the sign-doc inputs. -/
def Signer.sign (s : Signer) (chain_id : String) (account_number : Nat)
    (sequence_id : Nat) (gas_info : Nat) (body : Body) : SignedPayload :=
  { chain_id := chain_id
    account_number := account_number
    sequence_id := sequence_id
    gas := gas_info
    gas_price := s.gas_price
    denom := s.denom
    body := body }

/-- Errors a transport backend can produce for a request, per
`src/rpc/json_rpc.rs` and `src/rpc/grpc.rs`. -/
inductive TransportError where
  | tonicError (msg : String)
  | tonicStatus (msg : String)
  | tendermintRpcError (msg : String)
  | rpcError (log : String)
  | decodeError (msg : String)
  | queryPath (path : String)
  | noneTxResponse
deriving Repr, DecidableEq

/-- How each transport-level failure surfaces as a `CosmosResult` error
(the `#[from]` conversions of `src/error.rs` plus the explicit constructions
in the two transports). -/
def TransportError.toError : TransportError → Error
  | .tonicError m => .TonicError m
  | .tonicStatus m => .TonicStatus m
  | .tendermintRpcError m => .TendermintRpcError m
  | .rpcError l => .RpcError l
  | .decodeError m => .DecodeError m
  | .queryPath p => .QueryPath p
  | .noneTxResponse => .NoneTxResponse

/-- A broadcast response as the client returns it (`TxSyncResponse` /
`TxAsyncResponse` of `src/rpc/types.rs`). -/
structure TxBroadcastResponse where
  code : Nat
  data : List Nat
  log : String
  hash : String
deriving Repr, DecidableEq

/-- The remote's behaviour, one reply per request kind, as a function of the
request.  This replaces the live network behind the `Rpc` trait of
`src/rpc/types.rs`. -/
structure RpcOracle where
  accountResponse : String → Except TransportError QueryAccountResponse
  simulateResponse : SignedPayload → Except TransportError SimulateResponse
  broadcastSyncResponse : SignedPayload → Except TransportError TxBroadcastResponse
  broadcastAsyncResponse : SignedPayload → Except TransportError TxBroadcastResponse

/-- One transport invocation issued by the client, with the request it
carried. -/
inductive RpcCall where
  | accountQuery (address : String)
  | simulateCall (payload : SignedPayload)
  | broadcastSyncCall (payload : SignedPayload)
  | broadcastAsyncCall (payload : SignedPayload)
deriving Repr, DecidableEq

/-- Whether a transport invocation is an account-state resolution query. -/
def RpcCall.isAccountQuery : RpcCall → Bool
  | .accountQuery _ => true
  | _ => false

/-- Whether a transport invocation is a broadcast (sync or async). -/
def RpcCall.isBroadcast : RpcCall → Bool
  | .broadcastSyncCall _ => true
  | .broadcastAsyncCall _ => true
  | _ => false

/-- The `CosmosClient` state of `src/client.rs` lines 18–29.  The `rpc`
field becomes the explicit `RpcOracle` argument of each operation. -/
structure CosmosClient where
  chain_id : Option String
  signer : Option Signer
  account_id : Option Nat
  sequence_id : Option Nat
deriving Repr, DecidableEq

/-- The u64 modulus 2^64. -/
def u64Mod : Nat := 2 ^ 64

/-- The gas scaling of `src/client.rs` lines 144–147:
`gas_info.mul_assign(100 + pct); gas_info.div_assign(100)` in u64
arithmetic, so the product is taken modulo 2^64 (release-mode wrapping;
a debug build would abort at the same inputs). -/
def scaleGas (gas_used pct : Nat) : Nat :=
  gas_used * (100 + pct) % u64Mod / 100

/-- Models `CosmosClient::query` (`src/client.rs` lines 93–100) at the one
path the core itself calls, `"/cosmos.auth.v1beta1.Query/Account"`: a direct
delegation to the transport. -/
def CosmosClient.query (_c : CosmosClient) (rpc : RpcOracle) (address : String) :
    CosmosResult QueryAccountResponse × List RpcCall :=
  match rpc.accountResponse address with
  | .error e => (.error e.toError, [.accountQuery address])
  | .ok r => (.ok r, [.accountQuery address])

/-- Models `CosmosClient::simulate_tx` (`src/client.rs` lines 104–120):
requires signer, chain id, account id and sequence id (each missing one is
`NoSignerAttached`), signs the body with the fixed placeholder gas `100`,
and sends the payload to the transport's simulate endpoint. -/
def CosmosClient.simulate_tx (c : CosmosClient) (rpc : RpcOracle) (body : Body) :
    CosmosResult SimulateResponse × List RpcCall :=
  match c.signer with
  | none => (.error .NoSignerAttached, [])
  | some signer =>
    match c.chain_id with
    | none => (.error .NoSignerAttached, [])
    | some chain_id =>
      match c.account_id with
      | none => (.error .NoSignerAttached, [])
      | some account_id =>
        match c.sequence_id with
        | none => (.error .NoSignerAttached, [])
        | some sequence_id =>
          let tx := signer.sign chain_id account_id sequence_id 100 body
          match rpc.simulateResponse tx with
          | .error e => (.error e.toError, [.simulateCall tx])
          | .ok r => (.ok r, [.simulateCall tx])

/-- Models `CosmosClient::sign_tx` (`src/client.rs` lines 137–161): simulate
the body, fail `CannotSimulateTxGasFee` when the simulation carried no
`gas_info`, scale the reported `gas_used` by the signer's adjustment
percentage (u64 multiply-then-divide, `scaleGas`), and sign the body again
with the scaled gas and the client's stored account and sequence ids. -/
def CosmosClient.sign_tx (c : CosmosClient) (rpc : RpcOracle) (body : Body) :
    CosmosResult SignedPayload × List RpcCall :=
  match c.simulate_tx rpc body with
  | (.error e, tr) => (.error e, tr)
  | (.ok simulate_response, tr) =>
    if simulate_response.gas_info.isNone then
      (.error .CannotSimulateTxGasFee, tr)
    else
      match c.signer with
      | none => (.error .NoSignerAttached, tr)
      | some signer =>
        let gas_used := (simulate_response.gas_info.getD default).gas_used
        let gas_info := scaleGas gas_used signer.gas_adjustment_percent
        match c.chain_id with
        | none => (.error .NoSignerAttached, tr)
        | some chain_id =>
          match c.account_id with
          | none => (.error .NoSignerAttached, tr)
          | some account_id =>
            match c.sequence_id with
            | none => (.error .NoSignerAttached, tr)
            | some sequence_id =>
              (.ok (signer.sign chain_id account_id sequence_id gas_info body), tr)

/-- Models `CosmosClient::broadcast_tx_sync` (`src/client.rs` lines 131–134):
sign for real, then hand the payload to the transport's sync broadcast. -/
def CosmosClient.broadcast_tx_sync (c : CosmosClient) (rpc : RpcOracle) (body : Body) :
    CosmosResult TxBroadcastResponse × List RpcCall :=
  match c.sign_tx rpc body with
  | (.error e, tr) => (.error e, tr)
  | (.ok payload, tr) =>
    match rpc.broadcastSyncResponse payload with
    | .error e => (.error e.toError, tr ++ [.broadcastSyncCall payload])
    | .ok r => (.ok r, tr ++ [.broadcastSyncCall payload])

/-- Models `CosmosClient::broadcast_tx_async` (`src/client.rs` lines
124–127): sign for real, then hand the payload to the transport's async
broadcast. -/
def CosmosClient.broadcast_tx_async (c : CosmosClient) (rpc : RpcOracle) (body : Body) :
    CosmosResult TxBroadcastResponse × List RpcCall :=
  match c.sign_tx rpc body with
  | (.error e, tr) => (.error e, tr)
  | (.ok payload, tr) =>
    match rpc.broadcastAsyncResponse payload with
    | .error e => (.error e.toError, tr ++ [.broadcastAsyncCall payload])
    | .ok r => (.ok r, tr ++ [.broadcastAsyncCall payload])

/-- Models `CosmosClient::update_sequence_id` (`src/client.rs` lines
172–211): query the signer's account, decode it as a base account or a
continuous-vesting account (unwrapping the latter twice), store the
resulting `(account_number, sequence)` in the client, and fail
`AccountDoesNotExist` for an absent account or any other type URL.
Returns the possibly-updated client alongside the result and the calls. -/
def CosmosClient.update_sequence_id (c : CosmosClient) (rpc : RpcOracle) :
    CosmosClient × CosmosResult Unit × List RpcCall :=
  match c.signer with
  | none => (c, .error .NoSignerAttached, [])
  | some signer =>
    match c.query rpc signer.public_address with
    | (.error e, tr) => (c, .error e, tr)
    | (.ok response, tr) =>
      match response.account with
      | none => (c, .error (.AccountDoesNotExist signer.public_address), tr)
      | some account =>
        if account.type_url = "/cosmos.auth.v1beta1.BaseAccount" then
          match BaseAccount.decode account.value with
          | .error e => (c, .error e, tr)
          | .ok a =>
            ({ c with sequence_id := some a.sequence, account_id := some a.account_number },
             .ok (), tr)
        else if account.type_url = "/cosmos.vesting.v1beta1.ContinuousVestingAccount" then
          match ContinuousVestingAccount.decode account.value with
          | .error e => (c, .error e, tr)
          | .ok va =>
            match va.base_vesting_account with
            | none => (c, .error .NoVestingBaseAccount, tr)
            | some bva =>
              match bva.base_account with
              | none => (c, .error .NoVestingBaseAccount, tr)
              | some a =>
                ({ c with sequence_id := some a.sequence, account_id := some a.account_number },
                 .ok (), tr)
        else (c, .error (.AccountDoesNotExist signer.public_address), tr)

/-- Models `CosmosClient::attach_signer` (`src/client.rs` lines 79–84): set
the chain id and signer, then resolve the account state once via
`update_sequence_id`. -/
def CosmosClient.attach_signer (c : CosmosClient) (rpc : RpcOracle)
    (chain_id : String) (signer : Signer) :
    CosmosClient × CosmosResult Unit × List RpcCall :=
  CosmosClient.update_sequence_id
    { c with chain_id := some chain_id, signer := some signer } rpc

/-- Proto `GetTxResponse`, opaque to the poller. -/
structure GetTxResponse where
  raw : String
deriving Repr, DecidableEq

/-- The loop body of `Tx::poll_for_tx` (`src/cosmos/tx.rs` lines 62–74),
with the fuel (remaining iterations) and the index of the next attempt
explicit.  `get i` is the outcome of the `get_tx` call of attempt `i`
(0-based).  Returns the overall result, the number of `get_tx` attempts
issued, and the total time slept (3 seconds after every failed attempt). -/
def pollAux (get : Nat → CosmosResult GetTxResponse) :
    Nat → Nat → CosmosResult GetTxResponse × Nat × Nat
  | 0, _ => (.error .TXPollingTimeout, 0, 0)
  | n + 1, i =>
    match get i with
    | .ok r => (.ok r, 1, 0)
    | .error _ =>
      match pollAux get n (i + 1) with
      | (res, attempts, slept) => (res, attempts + 1, slept + 3)

/-- Models `Tx::poll_for_tx` (`src/cosmos/tx.rs` lines 62–74): up to 60
attempts, returning the first successful `get_tx` result, else
`TXPollingTimeout`. -/
def poll_for_tx (get : Nat → CosmosResult GetTxResponse) :
    CosmosResult GetTxResponse × Nat × Nat :=
  pollAux get 60 0

/-- Outcome of running a piece of code that may, besides returning a value
or an error, hit a panicking path (`unwrap` on a failed parse). -/
inductive RunOutcome (α : Type) where
  | ok (a : α)
  | err (e : Error)
  | panicked (msg : String)
deriving Repr, DecidableEq

/-- Proto `TxResponse` as read by the gRPC broadcast functions. -/
structure GrpcTxResponse where
  code : Nat
  txhash : String
  raw_log : String
  data : String
deriving Repr, DecidableEq

/-- Proto `BroadcastTxResponse` (the field the gRPC transport reads). -/
structure BroadcastTxResponse where
  tx_response : Option GrpcTxResponse
deriving Repr, DecidableEq

/-- Whether a character is a hexadecimal digit. -/
def isHexDigit (c : Char) : Bool :=
  c.isDigit || ('a' ≤ c && c ≤ 'f') || ('A' ≤ c && c ≤ 'F')

/-- Models `tendermint::Hash::from_str` as called in `src/rpc/grpc.rs`
lines 99 and 120 (an external library function): parsing succeeds exactly
on a 64-character hexadecimal SHA-256 digest and fails on anything else. -/
def Hash.fromStr (s : String) : Except Error String :=
  if s.length = 64 && s.toList.all isHexDigit then .ok s
  else .error (.TendermintError "invalid hash")

/-- Models prost `encode_to_vec` on the `data` string (opaque byte
encoding). -/
def protoEncode (s : String) : List Nat :=
  s.toList.map Char.toNat

/-- Models `Grpc::broadcast_tx_sync` (`src/rpc/grpc.rs` lines 105–122) as a
function of the remote's reply: a missing `tx_response` is
`NoneTxResponse`, and the transaction-hash field is parsed with
`Hash::from_str(..).unwrap()`, which panics when the hash is malformed. -/
def Grpc.broadcast_tx_sync (reply : Except TransportError BroadcastTxResponse) :
    RunOutcome TxBroadcastResponse :=
  match reply with
  | .error e => .err e.toError
  | .ok res =>
    match res.tx_response with
    | none => .err .NoneTxResponse
    | some tx =>
      match Hash.fromStr tx.txhash with
      | .error _ => .panicked "called Result::unwrap on an Err value"
      | .ok h => .ok { code := tx.code, data := protoEncode tx.data, log := tx.raw_log, hash := h }

/-- Models `Grpc::broadcast_tx_async` (`src/rpc/grpc.rs` lines 84–101):
identical to the sync variant except for the broadcast mode sent to the
remote. -/
def Grpc.broadcast_tx_async (reply : Except TransportError BroadcastTxResponse) :
    RunOutcome TxBroadcastResponse :=
  match reply with
  | .error e => .err e.toError
  | .ok res =>
    match res.tx_response with
    | none => .err .NoneTxResponse
    | some tx =>
      match Hash.fromStr tx.txhash with
      | .error _ => .panicked "called Result::unwrap on an Err value"
      | .ok h => .ok { code := tx.code, data := protoEncode tx.data, log := tx.raw_log, hash := h }

/-- The result of `abci_query` as read by `JsonRpc::query`
(`src/rpc/json_rpc.rs` lines 29–48). -/
structure AbciQueryResult where
  code : Nat
  log : String
  value : List Nat
deriving Repr, DecidableEq

/-- Models `JsonRpc::query` (`src/rpc/json_rpc.rs` lines 29–48) as a
function of the remote's reply: a transport failure becomes
`TendermintRpcError`; a reply whose ABCI code is non-zero (non-success)
becomes `RpcError` carrying the reply's log; otherwise the value bytes are
decoded by `dec` (the prost decoder for the response type `R`). -/
def JsonRpc.query {R : Type} (dec : List Nat → CosmosResult R)
    (reply : Except String AbciQueryResult) : CosmosResult R :=
  match reply with
  | .error e => .error (.TendermintRpcError e)
  | .ok res =>
    if res.code ≠ 0 then .error (.RpcError res.log)
    else dec res.value

/-- A `tonic::Status` carried by a failed gRPC call: in gRPC a remote that
reports a non-success status for a unary call surfaces as this error. -/
structure GrpcStatus where
  code : Nat
  message : String
deriving Repr, DecidableEq

/-- Models `http::uri::PathAndQuery::from_str` as called in
`src/rpc/grpc.rs` line 57 (an external library function): a path parses
exactly when it is nonempty and consists of visible ASCII characters. -/
def parsePathAndQuery (p : String) : Option String :=
  if p ≠ "" && p.toList.all (fun c => '!' ≤ c && c ≤ '~') then some p else none

/-- Models `Grpc::query` (`src/rpc/grpc.rs` lines 44–64) as a function of
the channel-readiness outcome and the remote's reply: a readiness failure
becomes `TonicError`; an unparsable path becomes `QueryPath`; a remote
non-success status becomes `TonicStatus` carrying the status message. -/
def Grpc.query {R : Type} (path : String) (ready : Except String Unit)
    (reply : Except GrpcStatus R) : CosmosResult R :=
  match ready with
  | .error e => .error (.TonicError e)
  | .ok _ =>
    match parsePathAndQuery path with
    | none => .error (.QueryPath path)
    | some _ =>
      match reply with
      | .error st => .error (.TonicStatus st.message)
      | .ok r => .ok r

/-- Whether a `CosmosResult` is a success, as `Result::is_ok` in
`src/cosmos/tx.rs` line 66. -/
def isOkResult : CosmosResult GetTxResponse → Bool
  | .ok _ => true
  | .error _ => false

/-- Concrete test signer (20 percent gas adjustment). -/
def signer0 : Signer :=
  { mnemonic := some "test seed phrase"
    denom := "uatom"
    public_address := "cosmos1abc"
    gas_adjustment_percent := 20
    gas_price := 1 }

/-- Concrete test transaction body. -/
def body0 : Body :=
  { messages := ["/cosmos.bank.v1beta1.MsgSend"], memo := "m", timeout_height := 0 }

/-- A freshly constructed client, before `attach_signer`
(`src/client.rs` lines 44–50). -/
def client_init : CosmosClient :=
  { chain_id := none, signer := none, account_id := none, sequence_id := none }

/-- A client with `signer0` attached and cached account state
`(account_id, sequence_id) = (7, 5)`. -/
def client0 : CosmosClient :=
  { chain_id := some "cosmoshub-4", signer := some signer0
    account_id := some 7, sequence_id := some 5 }

/-- A client whose signer was never attached. -/
def client_nosigner : CosmosClient :=
  { chain_id := some "cosmoshub-4", signer := none, account_id := none, sequence_id := none }

/-- A remote holding a base account `(7, 5)` for every address, reporting
`gas_used = 100000` for every simulation and accepting every broadcast. -/
def oracle0 : RpcOracle :=
  { accountResponse := fun _ =>
      .ok ⟨some ⟨"/cosmos.auth.v1beta1.BaseAccount", .baseAccount ⟨"cosmos1abc", 7, 5⟩⟩⟩
    simulateResponse := fun _ => .ok ⟨some ⟨90000, 100000⟩⟩
    broadcastSyncResponse := fun _ => .ok ⟨0, [], "", "AA"⟩
    broadcastAsyncResponse := fun _ => .ok ⟨0, [], "", "AA"⟩ }

/-- A remote returning an account of an unrecognized type for every
address. -/
def oracleUnknown : RpcOracle :=
  { accountResponse := fun _ => .ok ⟨some ⟨"/unknown.Account", .otherBytes [1, 2]⟩⟩
    simulateResponse := fun _ => .error (.tonicStatus "unused")
    broadcastSyncResponse := fun _ => .error (.tonicStatus "unused")
    broadcastAsyncResponse := fun _ => .error (.tonicStatus "unused") }

/-- A remote holding a continuous-vesting account wrapping base account
`(7, 5)`. -/
def oracleVesting : RpcOracle :=
  { accountResponse := fun _ =>
      .ok ⟨some ⟨"/cosmos.vesting.v1beta1.ContinuousVestingAccount",
        .continuousVestingAccount ⟨some ⟨some ⟨"cosmos1abc", 7, 5⟩⟩⟩⟩⟩
    simulateResponse := fun _ => .error (.tonicStatus "unused")
    broadcastSyncResponse := fun _ => .error (.tonicStatus "unused")
    broadcastAsyncResponse := fun _ => .error (.tonicStatus "unused") }

/-- A remote holding a vesting account with no `base_vesting_account`. -/
def oracleVestingOuterNone : RpcOracle :=
  { accountResponse := fun _ =>
      .ok ⟨some ⟨"/cosmos.vesting.v1beta1.ContinuousVestingAccount",
        .continuousVestingAccount ⟨none⟩⟩⟩
    simulateResponse := fun _ => .error (.tonicStatus "unused")
    broadcastSyncResponse := fun _ => .error (.tonicStatus "unused")
    broadcastAsyncResponse := fun _ => .error (.tonicStatus "unused") }

/-- A remote holding a vesting account whose `base_vesting_account` has no
inner `base_account`. -/
def oracleVestingInnerNone : RpcOracle :=
  { accountResponse := fun _ =>
      .ok ⟨some ⟨"/cosmos.vesting.v1beta1.ContinuousVestingAccount",
        .continuousVestingAccount ⟨some ⟨none⟩⟩⟩⟩
    simulateResponse := fun _ => .error (.tonicStatus "unused")
    broadcastSyncResponse := fun _ => .error (.tonicStatus "unused")
    broadcastAsyncResponse := fun _ => .error (.tonicStatus "unused") }

/-- A remote whose simulation succeeds at the transport level but carries
no `gas_info`. -/
def oracleNoGas : RpcOracle :=
  { accountResponse := fun _ =>
      .ok ⟨some ⟨"/cosmos.auth.v1beta1.BaseAccount", .baseAccount ⟨"cosmos1abc", 7, 5⟩⟩⟩
    simulateResponse := fun _ => .ok ⟨none⟩
    broadcastSyncResponse := fun _ => .ok ⟨0, [], "", "AA"⟩
    broadcastAsyncResponse := fun _ => .ok ⟨0, [], "", "AA"⟩ }

/-- A prost decoder for `QueryAccountResponse`, used to instantiate the
generic `JsonRpc.query` at a concrete response type. -/
def decQAR : List Nat → CosmosResult QueryAccountResponse :=
  fun _ => .ok ⟨none⟩

/-- A transaction-by-hash query that never finds the transaction. -/
def getNone : Nat → CosmosResult GetTxResponse :=
  fun _ => .error (.RpcError "tx not found")

/-- A transaction-by-hash query that first succeeds on attempt 3
(0-based index 2). -/
def getAt3 : Nat → CosmosResult GetTxResponse :=
  fun i => if i = 2 then .ok ⟨"found"⟩ else .error (.RpcError "tx not found")

/-- No transport-level failure surfaces as `CannotSimulateTxGasFee`. -/
lemma toError_ne_gasfee (e : TransportError) :
    e.toError ≠ Error.CannotSimulateTxGasFee := by
  cases e <;> simp [TransportError.toError]

/-- The real-sign step issues exactly the transport calls of its inner
simulation. -/
lemma sign_tx_trace_eq (c : CosmosClient) (o : RpcOracle) (b : Body) :
    (c.sign_tx o b).2 = (c.simulate_tx o b).2 := by
  unfold CosmosClient.sign_tx
  split
  · next e tr heq => rw [heq]
  · next r tr heq =>
    rw [heq]
    repeat' split
    all_goals rfl

/-- A simulation issues no transport call, or exactly one simulate call. -/
lemma simulate_tx_calls_shape (c : CosmosClient) (o : RpcOracle) (b : Body) :
    (c.simulate_tx o b).2 = [] ∨
    ∃ q, (c.simulate_tx o b).2 = [RpcCall.simulateCall q] := by
  simp only [CosmosClient.simulate_tx]
  repeat' split
  all_goals simp

/-- Every transport call issued by the real-sign step is a simulate call,
in particular neither an account query nor a broadcast. -/
lemma sign_tx_calls_simulate_only (c : CosmosClient) (o : RpcOracle) (b : Body)
    (k : RpcCall) (hk : k ∈ (c.sign_tx o b).2) :
    ∃ q, k = RpcCall.simulateCall q := by
  rw [sign_tx_trace_eq] at hk
  rcases simulate_tx_calls_shape c o b with h0 | ⟨q, h0⟩ <;> rw [h0] at hk
  · cases hk
  · rw [List.mem_singleton] at hk
    exact ⟨q, hk⟩

/-- A sync broadcast issues the calls of the real-sign step, followed by
one sync broadcast call when signing succeeded. -/
lemma broadcast_sync_calls_shape (c : CosmosClient) (o : RpcOracle) (b : Body) :
    (c.broadcast_tx_sync o b).2 = (c.sign_tx o b).2 ∨
    ∃ q, (c.sign_tx o b).1 = .ok q ∧
      (c.broadcast_tx_sync o b).2 = (c.sign_tx o b).2 ++ [RpcCall.broadcastSyncCall q] := by
  unfold CosmosClient.broadcast_tx_sync
  split
  · next e tr heq => rw [heq]; left; rfl
  · next pl tr heq =>
    rw [heq]
    split
    · right; exact ⟨pl, rfl, rfl⟩
    · right; exact ⟨pl, rfl, rfl⟩

/-- A async broadcast issues the calls of the real-sign step, followed by
one async broadcast call when signing succeeded. -/
lemma broadcast_async_calls_shape (c : CosmosClient) (o : RpcOracle) (b : Body) :
    (c.broadcast_tx_async o b).2 = (c.sign_tx o b).2 ∨
    ∃ q, (c.sign_tx o b).1 = .ok q ∧
      (c.broadcast_tx_async o b).2 = (c.sign_tx o b).2 ++ [RpcCall.broadcastAsyncCall q] := by
  unfold CosmosClient.broadcast_tx_async
  split
  · next e tr heq => rw [heq]; left; rfl
  · next pl tr heq =>
    rw [heq]
    split
    · right; exact ⟨pl, rfl, rfl⟩
    · right; exact ⟨pl, rfl, rfl⟩

/-- When the real-sign step succeeds, the signed payload carries exactly
the client's cached account number and sequence number. -/
lemma sign_tx_ok_fields (c : CosmosClient) (o : RpcOracle) (b : Body) (p : SignedPayload)
    (h : (c.sign_tx o b).1 = .ok p) :
    c.account_id = some p.account_number ∧ c.sequence_id = some p.sequence_id := by
  unfold CosmosClient.sign_tx at h
  split at h
  · simp at h
  · split at h
    · simp at h
    · split at h
      · simp at h
      · split at h
        · simp at h
        · split at h
          · simp at h
          · split at h
            · simp at h
            · simp only [Except.ok.injEq] at h
              subst h
              simp_all [Signer.sign]

/-- The payload of a sync broadcast's transport broadcast call is the
payload the real-sign step produced. -/
lemma broadcast_sync_mem (c : CosmosClient) (o : RpcOracle) (b : Body) (p : SignedPayload)
    (h : RpcCall.broadcastSyncCall p ∈ (c.broadcast_tx_sync o b).2) :
    (c.sign_tx o b).1 = .ok p := by
  rcases broadcast_sync_calls_shape c o b with h0 | ⟨q, hq, h0⟩ <;> rw [h0] at h
  · rcases sign_tx_calls_simulate_only c o b _ h with ⟨q, hq⟩
    cases hq
  · rw [List.mem_append] at h
    rcases h with h | h
    · rcases sign_tx_calls_simulate_only c o b _ h with ⟨q2, hq2⟩
      cases hq2
    · rw [List.mem_singleton] at h
      cases h
      exact hq

/-- When every remaining attempt fails, the poll loop runs all of them,
sleeps 3 seconds after each, and times out. -/
lemma pollAux_all_fail (get : Nat → CosmosResult GetTxResponse) :
    ∀ (n i : Nat), (∀ j, j < n → isOkResult (get (i + j)) = false) →
      pollAux get n i = (.error .TXPollingTimeout, n, 3 * n) := by
  intro n
  induction n with
  | zero => intro i _; rfl
  | succ m ih =>
    intro i h
    have h0 : isOkResult (get i) = false := by simpa using h 0 (Nat.succ_pos m)
    cases hg : get i with
    | ok r => rw [hg] at h0; simp [isOkResult] at h0
    | error e =>
      have hrec := ih (i + 1) (fun j hj => by
        have := h (j + 1) (Nat.succ_lt_succ hj)
        rwa [show i + (j + 1) = i + 1 + j by omega] at this)
      simp only [pollAux, hg, hrec]
      simp [Nat.mul_succ]

/-- When the first success is attempt index `k` (0-based) and `k` is within
the remaining budget, the poll loop returns that result after `k + 1`
attempts and `3 * k` seconds of sleep. -/
lemma pollAux_first_ok (get : Nat → CosmosResult GetTxResponse) :
    ∀ (n i k : Nat) (r : GetTxResponse), k < n →
      (∀ j, j < k → isOkResult (get (i + j)) = false) →
      get (i + k) = .ok r →
      pollAux get n i = (.ok r, k + 1, 3 * k) := by
  intro n
  induction n with
  | zero => intro i k r hk _ _; exact absurd hk (Nat.not_lt_zero k)
  | succ m ih =>
    intro i k r hk hfail hok
    cases k with
    | zero =>
      have hg : get i = .ok r := by simpa using hok
      simp [pollAux, hg]
    | succ kk =>
      have h0 : isOkResult (get i) = false := by simpa using hfail 0 (Nat.succ_pos kk)
      cases hg : get i with
      | ok rr => rw [hg] at h0; simp [isOkResult] at h0
      | error e =>
        have hrec := ih (i + 1) kk r (by omega)
          (fun j hj => by
            have := hfail (j + 1) (by omega)
            rwa [show i + (j + 1) = i + 1 + j by omega] at this)
          (by rwa [show i + (kk + 1) = i + 1 + kk by omega] at hok)
        simp only [pollAux, hg, hrec]
        simp [Nat.mul_succ]

/-- C3: the gas value used as the real gas limit does NOT equal
`floor(gasUsed * (100 + pct) / 100)` in exact integer arithmetic for every
u64 `gasUsed`: at `gasUsed = 2^63`, `pct = 20` the u64 product wraps and the
code computes gas `0`, and the claimed monotonicity in `gasUsed` fails at
the same point (`scaleGas 100000 20 = 120000 > 0`). -/
theorem c3_gas_scaling_counterexample :
    ¬ (scaleGas (2 ^ 63) 20 = 2 ^ 63 * (100 + 20) / 100) ∧
    scaleGas (2 ^ 63) 20 = 0 ∧
    ¬ (scaleGas 100000 20 ≤ scaleGas (2 ^ 63) 20) := by
  refine ⟨by decide, by decide, by decide⟩

/-- C3 (amended): whenever the u64 product `gasUsed * (100 + pct)` does not
overflow, the gas used as the real gas limit equals
`floor(gasUsed * (100 + pct) / 100)` exactly, and the scaling is monotonic
in `gasUsed` within the overflow-free region; `scaleGas 100000 20 = 120000`
and `scaleGas 1 50 = 1`. -/
theorem c3_gas_scaling :
    (∀ g p, g * (100 + p) < u64Mod → scaleGas g p = g * (100 + p) / 100) ∧
    (∀ g1 g2 p, g1 ≤ g2 → g2 * (100 + p) < u64Mod → scaleGas g1 p ≤ scaleGas g2 p) ∧
    scaleGas 100000 20 = 120000 ∧ scaleGas 1 50 = 1 := by
  refine ⟨?_, ?_, by decide, by decide⟩
  · intro g p h
    unfold scaleGas
    rw [Nat.mod_eq_of_lt h]
  · intro g1 g2 p h hlt
    have h1 : g1 * (100 + p) < u64Mod :=
      lt_of_le_of_lt (Nat.mul_le_mul_right _ h) hlt
    unfold scaleGas
    rw [Nat.mod_eq_of_lt h1, Nat.mod_eq_of_lt hlt]
    exact Nat.div_le_div_right (Nat.mul_le_mul_right _ h)

/-- Witness for C3 (amended) at `gasUsed = 100000`, `pct = 20` and the
monotone pair `(1, 100000)` at `pct = 50`. -/
theorem c3_gas_scaling_witness :
    scaleGas 100000 20 = 100000 * (100 + 20) / 100 ∧
    scaleGas 1 50 ≤ scaleGas 100000 50 :=
  ⟨c3_gas_scaling.1 100000 20 (by decide),
   c3_gas_scaling.2.1 1 100000 50 (by decide) (by decide)⟩

/-- C4: when every transaction-by-hash query fails, `poll_for_tx` issues
exactly 60 attempts, sleeping 3 seconds after each failed attempt, and
returns `TXPollingTimeout`; when the query first succeeds on attempt `k`
(1-based, `1 ≤ k ≤ 60`), it returns that result immediately with exactly
`k` attempts issued and `3 * (k - 1)` seconds slept between them. -/
theorem c4_poll_for_tx (get : Nat → CosmosResult GetTxResponse) :
    ((∀ i, i < 60 → isOkResult (get i) = false) →
      poll_for_tx get = (.error .TXPollingTimeout, 60, 180)) ∧
    (∀ (k : Nat) (r : GetTxResponse), 1 ≤ k → k ≤ 60 →
      (∀ i, i < k - 1 → isOkResult (get i) = false) →
      get (k - 1) = .ok r →
      poll_for_tx get = (.ok r, k, 3 * (k - 1))) := by
  constructor
  · intro h
    have := pollAux_all_fail get 60 0 (fun j hj => by simpa using h j hj)
    simpa [poll_for_tx] using this
  · intro k r h1 h60 hfail hok
    have := pollAux_first_ok get 60 0 (k - 1) r (by omega)
      (fun j hj => by simpa using hfail j hj)
      (by simpa using hok)
    rw [show k - 1 + 1 = k by omega] at this
    simpa [poll_for_tx] using this

/-- Witness for C4: the never-found hash times out after exactly 60
attempts and 180 seconds of sleeping; a hash found on attempt 3 returns
after exactly 3 attempts and 6 seconds of sleeping. -/
theorem c4_poll_for_tx_witness :
    poll_for_tx getNone = (.error .TXPollingTimeout, 60, 180) ∧
    poll_for_tx getAt3 = (.ok ⟨"found"⟩, 3, 3 * (3 - 1)) :=
  ⟨(c4_poll_for_tx getNone).1 (by decide),
   (c4_poll_for_tx getAt3).2 3 ⟨"found"⟩ (by decide) (by decide) (by decide) (by decide)⟩

/-- C5: with no signer attached, each of `simulate_tx`, `broadcast_tx_sync`
and `broadcast_tx_async` fails with `NoSignerAttached` having issued zero
transport invocations (empty call trace). -/
theorem c5_no_signer (c : CosmosClient) (o : RpcOracle) (b : Body)
    (h : c.signer = none) :
    c.simulate_tx o b = (.error .NoSignerAttached, []) ∧
    c.broadcast_tx_sync o b = (.error .NoSignerAttached, []) ∧
    c.broadcast_tx_async o b = (.error .NoSignerAttached, []) := by
  have hsim : c.simulate_tx o b = (.error .NoSignerAttached, []) := by
    unfold CosmosClient.simulate_tx
    rw [h]
  have hsign : c.sign_tx o b = (.error .NoSignerAttached, []) := by
    unfold CosmosClient.sign_tx
    rw [hsim]
  refine ⟨hsim, ?_, ?_⟩
  · unfold CosmosClient.broadcast_tx_sync
    rw [hsign]
  · unfold CosmosClient.broadcast_tx_async
    rw [hsign]

/-- Witness for C5 on a concrete client with no signer. -/
theorem c5_no_signer_witness :
    client_nosigner.simulate_tx oracle0 body0 = (.error .NoSignerAttached, []) ∧
    client_nosigner.broadcast_tx_sync oracle0 body0 = (.error .NoSignerAttached, []) ∧
    client_nosigner.broadcast_tx_async oracle0 body0 = (.error .NoSignerAttached, []) :=
  c5_no_signer client_nosigner oracle0 body0 rfl

/-- C8: evaluating the gRPC broadcast operations at a transport reply whose
transaction-hash field is malformed (not a 64-character hex digest) hits
the `Hash::from_str(..).unwrap()` call in `src/rpc/grpc.rs` lines 99 and
120 and panics instead of returning a typed error value. -/
theorem c8_broadcast_panics :
    Grpc.broadcast_tx_sync (.ok ⟨some ⟨0, "not-a-hash", "", ""⟩⟩) =
      .panicked "called Result::unwrap on an Err value" ∧
    Grpc.broadcast_tx_async (.ok ⟨some ⟨0, "not-a-hash", "", ""⟩⟩) =
      .panicked "called Result::unwrap on an Err value" := by
  exact ⟨by decide, by decide⟩

/-- The real-sign step never issues a broadcast call. -/
lemma sign_tx_countP_isBroadcast (c : CosmosClient) (o : RpcOracle) (b : Body) :
    ((c.sign_tx o b).2).countP RpcCall.isBroadcast = 0 := by
  rw [sign_tx_trace_eq]
  rcases simulate_tx_calls_shape c o b with h | ⟨q, h⟩ <;>
    simp [h, RpcCall.isBroadcast]

/-- When the real-sign step fails, the sync broadcast propagates the error
without issuing a broadcast call. -/
lemma broadcast_sync_of_sign_error (c : CosmosClient) (o : RpcOracle) (b : Body)
    (e : Error) (h : (c.sign_tx o b).1 = .error e) :
    c.broadcast_tx_sync o b = (.error e, (c.sign_tx o b).2) := by
  unfold CosmosClient.broadcast_tx_sync
  rcases hst : c.sign_tx o b with ⟨res, tr⟩
  rw [hst] at h
  cases res with
  | error e2 => cases h; rfl
  | ok pl => cases h

/-- When the real-sign step fails, the async broadcast propagates the error
without issuing a broadcast call. -/
lemma broadcast_async_of_sign_error (c : CosmosClient) (o : RpcOracle) (b : Body)
    (e : Error) (h : (c.sign_tx o b).1 = .error e) :
    c.broadcast_tx_async o b = (.error e, (c.sign_tx o b).2) := by
  unfold CosmosClient.broadcast_tx_async
  rcases hst : c.sign_tx o b with ⟨res, tr⟩
  rw [hst] at h
  cases res with
  | error e2 => cases h; rfl
  | ok pl => cases h

/-- A sync broadcast fails with `CannotSimulateTxGasFee` only when the
real-sign step already did: the transport's own broadcast failures never
surface as that error. -/
lemma broadcast_sync_gasfee_error (c : CosmosClient) (o : RpcOracle) (b : Body)
    (h : (c.broadcast_tx_sync o b).1 = .error .CannotSimulateTxGasFee) :
    (c.sign_tx o b).1 = .error .CannotSimulateTxGasFee := by
  unfold CosmosClient.broadcast_tx_sync at h
  split at h
  · next e tr heq =>
    have he : e = Error.CannotSimulateTxGasFee := Except.error.inj h
    subst he
    rw [heq]
  · next pl tr heq =>
    exfalso
    split at h
    · next e2 heq2 => exact absurd (Except.error.inj h) (toError_ne_gasfee e2)
    · next resp heq2 => cases h

/-- A async broadcast fails with `CannotSimulateTxGasFee` only when the
real-sign step already did. -/
lemma broadcast_async_gasfee_error (c : CosmosClient) (o : RpcOracle) (b : Body)
    (h : (c.broadcast_tx_async o b).1 = .error .CannotSimulateTxGasFee) :
    (c.sign_tx o b).1 = .error .CannotSimulateTxGasFee := by
  unfold CosmosClient.broadcast_tx_async at h
  split at h
  · next e tr heq =>
    have he : e = Error.CannotSimulateTxGasFee := Except.error.inj h
    subst he
    rw [heq]
  · next pl tr heq =>
    exfalso
    split at h
    · next e2 heq2 => exact absurd (Except.error.inj h) (toError_ne_gasfee e2)
    · next resp heq2 => cases h

/-- The real-sign step fails with `CannotSimulateTxGasFee` exactly when the
transport-level simulation succeeded and its response carried no
`gas_info`. -/
lemma sign_tx_gasfee_iff (c : CosmosClient) (o : RpcOracle) (b : Body)
    (sg : Signer) (ch : String) (aid sid : Nat)
    (hs : c.signer = some sg) (hc : c.chain_id = some ch)
    (ha : c.account_id = some aid) (hq : c.sequence_id = some sid) :
    ((c.sign_tx o b).1 = .error .CannotSimulateTxGasFee) ↔
      o.simulateResponse (sg.sign ch aid sid 100 b) = .ok ⟨none⟩ := by
  have hsim : c.simulate_tx o b =
      (match o.simulateResponse (sg.sign ch aid sid 100 b) with
       | .error e => (.error e.toError, [RpcCall.simulateCall (sg.sign ch aid sid 100 b)])
       | .ok r => (.ok r, [RpcCall.simulateCall (sg.sign ch aid sid 100 b)])) := by
    simp only [CosmosClient.simulate_tx, hs, hc, ha, hq]
  cases hso : o.simulateResponse (sg.sign ch aid sid 100 b) with
  | error e =>
    have hsign : (c.sign_tx o b).1 = .error e.toError := by
      unfold CosmosClient.sign_tx
      rw [hsim, hso]
    rw [hsign]
    constructor
    · intro hE
      exact absurd (Except.error.inj hE) (toError_ne_gasfee e)
    · intro hR
      cases hR
  | ok r =>
    rcases r with ⟨gi⟩
    cases gi with
    | none =>
      have hsign : (c.sign_tx o b).1 = .error .CannotSimulateTxGasFee := by
        unfold CosmosClient.sign_tx
        rw [hsim, hso]
        rfl
      rw [hsign]
      simp
    | some g =>
      have hsign : (c.sign_tx o b).1 =
          .ok (sg.sign ch aid sid (scaleGas g.gas_used sg.gas_adjustment_percent) b) := by
        simp [CosmosClient.sign_tx, hsim, hso, hs, hc, ha, hq]
      rw [hsign]
      simp

/-- C1: refuted at a concrete input — a full, successful sync broadcast on a
client whose account state was cached by an earlier `attach_signer` issues
exactly one simulate call and one broadcast call, and zero (not two)
account-resolution queries; both signatures reuse the cached pair
`(account_number, sequence) = (7, 5)` instead of freshly resolved values. -/
theorem c1_fresh_resolution_counterexample :
    (client0.broadcast_tx_sync oracle0 body0).2 =
      [RpcCall.simulateCall ⟨"cosmoshub-4", 7, 5, 100, 1, "uatom", body0⟩,
       RpcCall.broadcastSyncCall ⟨"cosmoshub-4", 7, 5, 120000, 1, "uatom", body0⟩] ∧
    ((client0.broadcast_tx_sync oracle0 body0).2).countP RpcCall.isAccountQuery = 0 ∧
    ((client0.broadcast_tx_sync oracle0 body0).2).countP RpcCall.isAccountQuery ≠ 2 := by
  refine ⟨by decide, by decide, by decide⟩

/-- C1 (amended): account state is resolved by an account query only inside
`attach_signer`; `simulate_tx`, `broadcast_tx_sync` and
`broadcast_tx_async` issue zero account-resolution queries and reuse the
client's cached `account_id` and `sequence_id`. -/
theorem c1_no_fresh_resolution :
    ∀ (c : CosmosClient) (o : RpcOracle) (b : Body),
      ((c.simulate_tx o b).2).countP RpcCall.isAccountQuery = 0 ∧
      ((c.broadcast_tx_sync o b).2).countP RpcCall.isAccountQuery = 0 ∧
      ((c.broadcast_tx_async o b).2).countP RpcCall.isAccountQuery = 0 := by
  intro c o b
  have hsim : ((c.simulate_tx o b).2).countP RpcCall.isAccountQuery = 0 := by
    rcases simulate_tx_calls_shape c o b with h | ⟨q, h⟩ <;>
      simp [h, RpcCall.isAccountQuery]
  have hsign : ((c.sign_tx o b).2).countP RpcCall.isAccountQuery = 0 := by
    rw [sign_tx_trace_eq]
    exact hsim
  refine ⟨hsim, ?_, ?_⟩
  · rcases broadcast_sync_calls_shape c o b with h | ⟨q, _, h⟩ <;>
      simp [h, hsign, List.countP_append, RpcCall.isAccountQuery]
  · rcases broadcast_async_calls_shape c o b with h | ⟨q, _, h⟩ <;>
      simp [h, hsign, List.countP_append, RpcCall.isAccountQuery]

/-- C2: after a successful `attach_signer`, the broadcast operations leave
the client's cached account state in place (they take the client immutably
and return no updated client), so the payload handed to the transport by
any two subsequent sync broadcasts carries the client's cached sequence
number and account number — the same pair both times. -/
theorem c2_broadcasts_reuse_cached_sequence (c : CosmosClient) (oc o1 o2 : RpcOracle)
    (chain : String) (sg : Signer) (c1 : CosmosClient) (tr0 : List RpcCall)
    (hattach : c.attach_signer oc chain sg = (c1, .ok (), tr0))
    (b1 b2 : Body) (p1 p2 : SignedPayload)
    (h1 : RpcCall.broadcastSyncCall p1 ∈ (c1.broadcast_tx_sync o1 b1).2)
    (h2 : RpcCall.broadcastSyncCall p2 ∈ (c1.broadcast_tx_sync o2 b2).2) :
    c1.sequence_id = some p1.sequence_id ∧ c1.account_id = some p1.account_number ∧
    p1.sequence_id = p2.sequence_id ∧ p1.account_number = p2.account_number := by
  have e1 := sign_tx_ok_fields c1 o1 b1 p1 (broadcast_sync_mem c1 o1 b1 p1 h1)
  have e2 := sign_tx_ok_fields c1 o2 b2 p2 (broadcast_sync_mem c1 o2 b2 p2 h2)
  refine ⟨e1.2, e1.1, ?_, ?_⟩
  · exact Option.some.inj (e1.2.symm.trans e2.2)
  · exact Option.some.inj (e1.1.symm.trans e2.1)

/-- Witness for C2: attaching `signer0` to a fresh client caches `(7, 5)`,
and two successive sync broadcasts both hand the transport a payload signed
with sequence 5 and account number 7. -/
theorem c2_broadcasts_reuse_cached_sequence_witness :
    client0.sequence_id =
      some (SignedPayload.sequence_id ⟨"cosmoshub-4", 7, 5, 120000, 1, "uatom", body0⟩) ∧
    client0.account_id =
      some (SignedPayload.account_number ⟨"cosmoshub-4", 7, 5, 120000, 1, "uatom", body0⟩) ∧
    SignedPayload.sequence_id ⟨"cosmoshub-4", 7, 5, 120000, 1, "uatom", body0⟩ =
      SignedPayload.sequence_id ⟨"cosmoshub-4", 7, 5, 120000, 1, "uatom", body0⟩ ∧
    SignedPayload.account_number ⟨"cosmoshub-4", 7, 5, 120000, 1, "uatom", body0⟩ =
      SignedPayload.account_number ⟨"cosmoshub-4", 7, 5, 120000, 1, "uatom", body0⟩ :=
  c2_broadcasts_reuse_cached_sequence client_init oracle0 oracle0 oracle0 "cosmoshub-4"
    signer0 client0 [RpcCall.accountQuery "cosmos1abc"] (by decide) body0 body0 _ _
    (by decide) (by decide)

/-- C6: during account resolution, a reply carrying no account, or an
account whose type URL is neither the base-account type nor the recognized
vesting-account type, deterministically fails with `AccountDoesNotExist`
(the spec's `AccountNotFound`) carrying the signer's address. -/
theorem c6_unknown_account_type (c : CosmosClient) (o : RpcOracle) (sg : Signer)
    (resp : QueryAccountResponse)
    (hs : c.signer = some sg)
    (hr : o.accountResponse sg.public_address = .ok resp)
    (hbad : resp.account = none ∨
      ∃ a, resp.account = some a ∧
        a.type_url ≠ "/cosmos.auth.v1beta1.BaseAccount" ∧
        a.type_url ≠ "/cosmos.vesting.v1beta1.ContinuousVestingAccount") :
    (c.update_sequence_id o).2.1 = .error (.AccountDoesNotExist sg.public_address) := by
  rcases hbad with hnone | ⟨a, ha, hu1, hu2⟩
  · simp [CosmosClient.update_sequence_id, CosmosClient.query, hs, hr, hnone]
  · simp [CosmosClient.update_sequence_id, CosmosClient.query, hs, hr, ha, hu1, hu2]

/-- Witness for C6 at a concrete unknown account type `"/unknown.Account"`. -/
theorem c6_unknown_account_type_witness :
    (client0.update_sequence_id oracleUnknown).2.1 =
      .error (.AccountDoesNotExist "cosmos1abc") :=
  c6_unknown_account_type client0 oracleUnknown signer0
    ⟨some ⟨"/unknown.Account", .otherBytes [1, 2]⟩⟩ rfl rfl
    (Or.inr ⟨⟨"/unknown.Account", .otherBytes [1, 2]⟩, rfl, by decide, by decide⟩)

/-- C7: resolving a base account with `(account_number, sequence) = (n, s)`
and resolving a continuous-vesting account whose inner base account has the
same `(n, s)` store the same pair in the client, while a vesting-typed
account missing its inner base account at either nesting level fails with
`NoVestingBaseAccount` (the spec's `VestingAccountMalformed`). -/
theorem c7_vesting_same_pair (c : CosmosClient) (sg : Signer) (addr : String)
    (n s : Nat) (oB oV oM1 oM2 : RpcOracle)
    (hs : c.signer = some sg)
    (hB : oB.accountResponse sg.public_address =
      .ok ⟨some ⟨"/cosmos.auth.v1beta1.BaseAccount", .baseAccount ⟨addr, n, s⟩⟩⟩)
    (hV : oV.accountResponse sg.public_address =
      .ok ⟨some ⟨"/cosmos.vesting.v1beta1.ContinuousVestingAccount",
        .continuousVestingAccount ⟨some ⟨some ⟨addr, n, s⟩⟩⟩⟩⟩)
    (hM1 : oM1.accountResponse sg.public_address =
      .ok ⟨some ⟨"/cosmos.vesting.v1beta1.ContinuousVestingAccount",
        .continuousVestingAccount ⟨none⟩⟩⟩)
    (hM2 : oM2.accountResponse sg.public_address =
      .ok ⟨some ⟨"/cosmos.vesting.v1beta1.ContinuousVestingAccount",
        .continuousVestingAccount ⟨some ⟨none⟩⟩⟩⟩) :
    ((c.update_sequence_id oB).1.account_id = some n ∧
     (c.update_sequence_id oB).1.sequence_id = some s ∧
     (c.update_sequence_id oB).2.1 = .ok () ∧
     (c.update_sequence_id oV).1.account_id = some n ∧
     (c.update_sequence_id oV).1.sequence_id = some s ∧
     (c.update_sequence_id oV).2.1 = .ok ()) ∧
    ((c.update_sequence_id oM1).2.1 = .error .NoVestingBaseAccount ∧
     (c.update_sequence_id oM2).2.1 = .error .NoVestingBaseAccount) := by
  refine ⟨⟨?_, ?_, ?_, ?_, ?_, ?_⟩, ?_, ?_⟩ <;>
    simp [CosmosClient.update_sequence_id, CosmosClient.query, hs, hB, hV, hM1, hM2,
      BaseAccount.decode, ContinuousVestingAccount.decode]

/-- Witness for C7 at `(n, s) = (7, 5)` across the four concrete remotes. -/
theorem c7_vesting_same_pair_witness :
    ((client0.update_sequence_id oracle0).1.account_id = some 7 ∧
     (client0.update_sequence_id oracle0).1.sequence_id = some 5 ∧
     (client0.update_sequence_id oracle0).2.1 = .ok () ∧
     (client0.update_sequence_id oracleVesting).1.account_id = some 7 ∧
     (client0.update_sequence_id oracleVesting).1.sequence_id = some 5 ∧
     (client0.update_sequence_id oracleVesting).2.1 = .ok ()) ∧
    ((client0.update_sequence_id oracleVestingOuterNone).2.1 =
       .error .NoVestingBaseAccount ∧
     (client0.update_sequence_id oracleVestingInnerNone).2.1 =
       .error .NoVestingBaseAccount) :=
  c7_vesting_same_pair client0 signer0 "cosmos1abc" 7 5 oracle0 oracleVesting
    oracleVestingOuterNone oracleVestingInnerNone rfl rfl rfl rfl rfl

/-- C9: refuted at a concrete input — on a remote-reported non-success
query status, the JSON transport fails with `RpcError` (the spec's
`QueryFailed`) carrying the remote's log, but the gRPC transport fails with
`TonicStatus`, a different error kind. -/
theorem c9_query_error_counterexample :
    JsonRpc.query decQAR (.ok ⟨5, "out of gas", []⟩) = .error (.RpcError "out of gas") ∧
    (Grpc.query "/cosmos.auth.v1beta1.Query/Account" (.ok ())
        (.error ⟨5, "out of gas"⟩) : CosmosResult QueryAccountResponse) =
      .error (.TonicStatus "out of gas") ∧
    Error.TonicStatus "out of gas" ≠ Error.RpcError "out of gas" := by
  refine ⟨by decide, by decide, by decide⟩

/-- C9 (amended): the JSON transport maps a remote-reported non-success
query status to `RpcError` carrying the remote's log, while the gRPC
transport surfaces a remote non-success status as `TonicStatus` carrying
the status message; the two kinds are always distinct, so the transports do
not present an identical error shape for remote-reported query failure. -/
theorem c9_query_error_shapes (R : Type) (dec : List Nat → CosmosResult R)
    (res : AbciQueryResult) (hcode : res.code ≠ 0)
    (path : String) (hpath : (parsePathAndQuery path).isSome = true)
    (st : GrpcStatus) :
    JsonRpc.query dec (.ok res) = .error (.RpcError res.log) ∧
    (Grpc.query path (.ok ()) (.error st) : CosmosResult R) =
      .error (.TonicStatus st.message) ∧
    (∀ l m, Error.RpcError l ≠ Error.TonicStatus m) := by
  refine ⟨?_, ?_, fun l m h => by cases h⟩
  · simp [JsonRpc.query, hcode]
  · rcases hp : parsePathAndQuery path with _ | q
    · rw [hp] at hpath
      simp at hpath
    · simp [Grpc.query, hp]

/-- Witness for C9 (amended) at a concrete failed query. -/
theorem c9_query_error_shapes_witness :
    JsonRpc.query decQAR (.ok ⟨5, "oog", []⟩) = .error (.RpcError "oog") ∧
    (Grpc.query "/cosmos.auth.v1beta1.Query/Account" (.ok ())
        (.error ⟨5, "oog"⟩) : CosmosResult QueryAccountResponse) =
      .error (.TonicStatus "oog") ∧
    (∀ l m, Error.RpcError l ≠ Error.TonicStatus m) :=
  c9_query_error_shapes QueryAccountResponse decQAR ⟨5, "oog", []⟩ (by decide)
    "/cosmos.auth.v1beta1.Query/Account" (by decide) ⟨5, "oog"⟩

/-- C10: on a client with a signer attached (all four cached fields set),
`broadcast_tx_sync` and `broadcast_tx_async` fail with
`CannotSimulateTxGasFee` (the spec's `SimulationUnavailable`) exactly when
the dry-run simulation succeeds at the transport level but its response
carries no gas-usage field; on that failure the trace contains zero
broadcast calls. -/
theorem c10_simulation_unavailable (c : CosmosClient) (o : RpcOracle) (b : Body)
    (sg : Signer) (ch : String) (aid sid : Nat)
    (hs : c.signer = some sg) (hc : c.chain_id = some ch)
    (ha : c.account_id = some aid) (hq : c.sequence_id = some sid) :
    (((c.broadcast_tx_sync o b).1 = .error .CannotSimulateTxGasFee) ↔
      o.simulateResponse (sg.sign ch aid sid 100 b) = .ok ⟨none⟩) ∧
    (((c.broadcast_tx_async o b).1 = .error .CannotSimulateTxGasFee) ↔
      o.simulateResponse (sg.sign ch aid sid 100 b) = .ok ⟨none⟩) ∧
    ((c.broadcast_tx_sync o b).1 = .error .CannotSimulateTxGasFee →
      ((c.broadcast_tx_sync o b).2).countP RpcCall.isBroadcast = 0) ∧
    ((c.broadcast_tx_async o b).1 = .error .CannotSimulateTxGasFee →
      ((c.broadcast_tx_async o b).2).countP RpcCall.isBroadcast = 0) := by
  have hiff := sign_tx_gasfee_iff c o b sg ch aid sid hs hc ha hq
  refine ⟨⟨?_, ?_⟩, ⟨?_, ?_⟩, ?_, ?_⟩
  · intro hE
    exact hiff.mp (broadcast_sync_gasfee_error c o b hE)
  · intro hR
    rw [broadcast_sync_of_sign_error c o b _ (hiff.mpr hR)]
  · intro hE
    exact hiff.mp (broadcast_async_gasfee_error c o b hE)
  · intro hR
    rw [broadcast_async_of_sign_error c o b _ (hiff.mpr hR)]
  · intro hE
    rw [broadcast_sync_of_sign_error c o b _ (broadcast_sync_gasfee_error c o b hE)]
    exact sign_tx_countP_isBroadcast c o b
  · intro hE
    rw [broadcast_async_of_sign_error c o b _ (broadcast_async_gasfee_error c o b hE)]
    exact sign_tx_countP_isBroadcast c o b

/-- Witness for C10: against a remote whose simulation succeeds without a
gas-usage field, both broadcasts fail with `CannotSimulateTxGasFee` and
issue zero broadcast calls. -/
theorem c10_simulation_unavailable_witness :
    (client0.broadcast_tx_sync oracleNoGas body0).1 = .error .CannotSimulateTxGasFee ∧
    ((client0.broadcast_tx_sync oracleNoGas body0).2).countP RpcCall.isBroadcast = 0 ∧
    (client0.broadcast_tx_async oracleNoGas body0).1 = .error .CannotSimulateTxGasFee := by
  have h := c10_simulation_unavailable client0 oracleNoGas body0 signer0 "cosmoshub-4"
    7 5 rfl rfl rfl rfl
  have h1 := h.1.mpr rfl
  exact ⟨h1, h.2.2.1 h1, h.2.1.mpr rfl⟩
